import Mathlib

/-!
# go-drone-deploy: the flow orchestrator and the cluster reconciler

A shallow embedding of `internal/biz/deploy.go` (the use case that runs a
deployment flow against a `DeployRepo`) and of `internal/data/deploy.go`
(the repository that talks to Docker, Kubernetes and the webhook), and of the
flag `-flow` and the flow-name switch of `cmd/go-drone-deploy/main.go`.

Conventions of the embedding:

* a Go `error` result is an `Option`: `none` is `nil`;
* a Go pointer to a struct that may be `nil` is an `Option` of the struct;
* `int32` fields are `Int` (the code does no arithmetic on them);
* a Go `map[string]T` is an association list, `nil` maps being `none`;
* the collaborators behind an interface (the `DeployRepo` seen by the use
  case, the Kubernetes client seen by the repository) are oracles: functions
  from the calls made so far and the call being made to its outcome, so that
  a theorem quantified over the oracle holds for every behaviour of the
  collaborator, stateful ones included;
* every call made on a collaborator and every log line is recorded, in order;
* the `context.Context` argument is left out (no method reads it), and the
  config pointer a method receives is taken to be non-nil, as every method
  dereferences it at once.
-/

set_option autoImplicit false
set_option linter.dupNamespace false

namespace DroneDeploy

/-! ## Errors -/

/-- A Go `error` as one layer of the program sees it. `foreign e` is an error
value handed in by a collaborator; `errorf` is a value made here by
`fmt.Errorf` without `%w`; `wrapf pre cause` is the value made here by
`fmt.Errorf(pre + "%w", cause)`. Go compares these values by identity, so an
error made here is never the value a collaborator returned: the constructors
keep the two apart. -/
inductive GoError (α : Type) where
  | foreign (e : α)
  | errorf (text : String)
  | wrapf (pre : String) (cause : GoError α)
  deriving DecidableEq, Repr

namespace GoError

variable {α : Type}

/-- The `Error()` string: a wrapping error prints its text followed by the
text of its cause. -/
def Error (text : α → String) : GoError α → String
  | foreign e => text e
  | errorf t => t
  | wrapf pre cause => pre ++ cause.Error text

/-- The `Unwrap()` method: only errors built with `%w` have a cause. -/
def Unwrap : GoError α → Option (GoError α)
  | wrapf _ cause => some cause
  | _ => none

/-- The test `errors.Is(err, target)`: `target` is `err` or is found by
unwrapping `err` repeatedly. -/
def Is [DecidableEq α] : GoError α → GoError α → Bool
  | foreign e, target => decide (foreign e = target)
  | errorf t, target => decide (errorf t = target)
  | wrapf pre cause, target => decide (wrapf pre cause = target) || cause.Is target

end GoError

/-! ## Logging -/

/-- The two levels of `log.Helper` the code uses. -/
inductive LogLevel where
  | Info
  | Warn
  deriving DecidableEq, Repr

/-- One line written through `log.Helper`. -/
structure LogEntry where
  level : LogLevel
  text : String
  deriving DecidableEq, Repr

/-! ## Data model (`internal/biz/deploy.go`) -/

/-- The type `DeployFlow`: a Go string. -/
abbrev DeployFlow := String

/-- The constant `FlowAll`: the complete flow. -/
def FlowAll : DeployFlow := "all"

/-- The constant `FlowDocker`: build and push only. -/
def FlowDocker : DeployFlow := "docker"

/-- The constant `FlowK8s`: the Kubernetes steps only. -/
def FlowK8s : DeployFlow := "k8s"

/-- The constant `FlowNotify`: the notification only. -/
def FlowNotify : DeployFlow := "notify"

/-- The constant `FlowStandard`: the complete flow without the notification. -/
def FlowStandard : DeployFlow := "standard"

/-- The struct `DockerConfig`. -/
structure DockerConfig where
  Registry : String
  Username : String
  Password : String
  ImageName : String
  DockerfilePath : String
  BuildContext : String
  deriving DecidableEq, Repr

/-- The struct `Resources`. -/
structure Resources where
  CPURequest : String
  MemoryRequest : String
  CPULimit : String
  MemoryLimit : String
  deriving DecidableEq, Repr

/-- The struct `Port`. -/
structure Port where
  Name : String
  Port : Int
  TargetPort : Int
  Protocol : String
  deriving DecidableEq, Repr

/-- The struct `EnvVar`. -/
structure EnvVar where
  Name : String
  Value : String
  deriving DecidableEq, Repr

/-- The struct `K8sConfig`; the slices hold non-nil elements. -/
structure K8sConfig where
  KubeconfigPath : String
  Namespace : String
  DeploymentName : String
  ServiceName : String
  Replicas : Int
  Resources : Option Resources
  Ports : List Port
  EnvVars : List EnvVar
  deriving DecidableEq, Repr

/-- The struct `NotifyConfig`. -/
structure NotifyConfig where
  Enabled : Bool
  WebhookURL : String
  Channel : String
  deriving DecidableEq, Repr

/-- The struct `DeployConfig`; the three sub-configs are pointers. -/
structure DeployConfig where
  ProjectName : String
  Author : String
  Namespace : String
  Version : String
  Env : String
  Docker : Option DockerConfig
  K8s : Option K8sConfig
  Notify : Option NotifyConfig
  deriving DecidableEq, Repr

/-! ## The repository interface -/

/-- An error returned by an implementation of `DeployRepo`. -/
structure RepoError where
  text : String
  deriving DecidableEq, Repr

/-- One call on the interface `DeployRepo`, with its arguments. -/
inductive RepoCall where
  | BuildDockerImage (config : DockerConfig)
  | PushDockerImage (config : DockerConfig)
  | ApplyK8sDeployment (config : K8sConfig)
  | ApplyK8sService (config : K8sConfig)
  | UpdateK8sVersion (config : K8sConfig)
  | SendNotification (config : NotifyConfig) (message : String)
  deriving DecidableEq, Repr

/-- The six methods of `DeployRepo`. -/
inductive RepoOp where
  | BuildDockerImage
  | PushDockerImage
  | ApplyK8sDeployment
  | ApplyK8sService
  | UpdateK8sVersion
  | SendNotification
  deriving DecidableEq, Repr

/-- The method a call is a call of. -/
def RepoCall.op : RepoCall → RepoOp
  | .BuildDockerImage _ => .BuildDockerImage
  | .PushDockerImage _ => .PushDockerImage
  | .ApplyK8sDeployment _ => .ApplyK8sDeployment
  | .ApplyK8sService _ => .ApplyK8sService
  | .UpdateK8sVersion _ => .UpdateK8sVersion
  | .SendNotification _ _ => .SendNotification

/-- An implementation of `DeployRepo`: given the calls already made on it, in
order, and the call being made, the error it returns (`none` for `nil`). -/
abbrev DeployRepo := List RepoCall → RepoCall → Option RepoError

/-- What a run of the use case has done so far: the calls made on the
repository and the lines logged, both oldest first. -/
structure Run where
  calls : List RepoCall
  logs : List LogEntry
  deriving DecidableEq, Repr

/-- The state before `Deploy` is entered. -/
def Run.start : Run := ⟨[], []⟩

/-- Record a line logged at level Info. -/
def Run.info (w : Run) (text : String) : Run :=
  { w with logs := w.logs ++ [⟨LogLevel.Info, text⟩] }

/-- Record a line logged at level Warn. -/
def Run.warn (w : Run) (text : String) : Run :=
  { w with logs := w.logs ++ [⟨LogLevel.Warn, text⟩] }

/-- Record a call made on the repository. -/
def Run.called (w : Run) (c : RepoCall) : Run :=
  { w with calls := w.calls ++ [c] }

/-- The errors of the use case: made here, or handed in by the repository. -/
abbrev DeployError := GoError RepoError

/-- The `Error()` string of an error of the use case. -/
def DeployError.text (e : DeployError) : String :=
  GoError.Error RepoError.text e

/-! ## The use case (`internal/biz/deploy.go`) -/

/-- The method `deployDocker`: build, then push. -/
def deployDocker (repo : DeployRepo) (config : DeployConfig) (w : Run) :
    Option DeployError × Run :=
  match config.Docker with
  | none => (some (.errorf "Docker 配置为空"), w)
  | some docker =>
    let w1 := w.info "开始构建 Docker 镜像"
    match repo w1.calls (.BuildDockerImage docker) with
    | some err =>
      (some (.wrapf "构建 Docker 镜像失败: " (.foreign err)),
        w1.called (.BuildDockerImage docker))
    | none =>
      let w2 := (w1.called (.BuildDockerImage docker)).info "开始推送 Docker 镜像"
      match repo w2.calls (.PushDockerImage docker) with
      | some err =>
        (some (.wrapf "推送 Docker 镜像失败: " (.foreign err)),
          w2.called (.PushDockerImage docker))
      | none => (none, w2.called (.PushDockerImage docker))

/-- The method `deployK8s`: Deployment, then Service, then the restart. -/
def deployK8s (repo : DeployRepo) (config : DeployConfig) (w : Run) :
    Option DeployError × Run :=
  match config.K8s with
  | none => (some (.errorf "Kubernetes 配置为空"), w)
  | some k8s =>
    let w1 := w.info "开始部署 Kubernetes Deployment"
    match repo w1.calls (.ApplyK8sDeployment k8s) with
    | some err =>
      (some (.wrapf "部署 Kubernetes Deployment 失败: " (.foreign err)),
        w1.called (.ApplyK8sDeployment k8s))
    | none =>
      let w2 := (w1.called (.ApplyK8sDeployment k8s)).info "开始部署 Kubernetes Service"
      match repo w2.calls (.ApplyK8sService k8s) with
      | some err =>
        (some (.wrapf "部署 Kubernetes Service 失败: " (.foreign err)),
          w2.called (.ApplyK8sService k8s))
      | none =>
        let w3 := (w2.called (.ApplyK8sService k8s)).info "开始更新 Kubernetes 版本"
        match repo w3.calls (.UpdateK8sVersion k8s) with
        | some err =>
          (some (.wrapf "更新 Kubernetes 版本失败: " (.foreign err)),
            w3.called (.UpdateK8sVersion k8s))
        | none => (none, w3.called (.UpdateK8sVersion k8s))

/-- The message `deployNotify` sends. -/
def notifyMessage (config : DeployConfig) : String :=
  "项目 " ++ config.ProjectName ++ " 在 " ++ config.Env ++ " 环境部署成功，版本: " ++ config.Version

/-- The method `deployNotify`: nothing to do unless a notification config is
present and enabled; otherwise the result of `SendNotification`, as it is. -/
def deployNotify (repo : DeployRepo) (config : DeployConfig) (w : Run) :
    Option DeployError × Run :=
  match config.Notify with
  | none => (none, w.info "通知功能未启用")
  | some notify =>
    if notify.Enabled = false then (none, w.info "通知功能未启用")
    else
      ((repo w.calls (.SendNotification notify (notifyMessage config))).map .foreign,
        w.called (.SendNotification notify (notifyMessage config)))

/-- The method `deployAll`: Docker, Kubernetes, then the notification, whose
error is logged and dropped. -/
def deployAll (repo : DeployRepo) (config : DeployConfig) (w : Run) :
    Option DeployError × Run :=
  match deployDocker repo config w with
  | (some err, w1) => (some (.wrapf "Docker 部署失败: " err), w1)
  | (none, w1) =>
    match deployK8s repo config w1 with
    | (some err, w2) => (some (.wrapf "Kubernetes 部署失败: " err), w2)
    | (none, w2) =>
      match deployNotify repo config w2 with
      | (some err, w3) => (none, w3.warn ("通知发送失败: " ++ DeployError.text err))
      | (none, w3) => (none, w3)

/-- The method `deployStandard`: Docker, then Kubernetes. -/
def deployStandard (repo : DeployRepo) (config : DeployConfig) (w : Run) :
    Option DeployError × Run :=
  match deployDocker repo config w with
  | (some err, w1) => (some (.wrapf "Docker 部署失败: " err), w1)
  | (none, w1) =>
    match deployK8s repo config w1 with
    | (some err, w2) => (some (.wrapf "Kubernetes 部署失败: " err), w2)
    | (none, w2) => (none, w2)

/-- The method `Deploy`: log the start, then switch on the flow. -/
def Deploy (repo : DeployRepo) (config : DeployConfig) (flow : DeployFlow) (w : Run) :
    Option DeployError × Run :=
  let w0 := w.info ("开始部署，项目: " ++ config.ProjectName ++ ", 环境: " ++ config.Env
    ++ ", 流程: " ++ flow)
  if flow = FlowAll then deployAll repo config w0
  else if flow = FlowDocker then deployDocker repo config w0
  else if flow = FlowK8s then deployK8s repo config w0
  else if flow = FlowNotify then deployNotify repo config w0
  else if flow = FlowStandard then deployStandard repo config w0
  else (some (.errorf ("不支持的部署流程: " ++ flow)), w0)

/-! ## Kubernetes objects

The types of `k8s.io/api` and `k8s.io/apimachinery` the repository builds,
fetches and sends, with the fields it sets and the identity fields of the
metadata. A field the code leaves out of a literal has its Go zero value,
which is the default given here. -/

/-- A non-nil Go `map[string]string`, as the list of its entries. -/
abbrev StrMap := List (String × String)

/-- The value stored under a key: `m[k]` with its `ok` flag. -/
def mapGet {ν : Type} : List (String × ν) → String → Option ν
  | [], _ => none
  | (k0, v0) :: rest, k => if k0 = k then some v0 else mapGet rest k

/-- The assignment `m[k] = v`: the entry of `k` is replaced where it stands, or
added when the key is new. -/
def mapSet {ν : Type} : List (String × ν) → String → ν → List (String × ν)
  | [], k, v => [(k, v)]
  | (k0, v0) :: rest, k, v =>
    if k0 = k then (k, v) :: rest else (k0, v0) :: mapSet rest k v

/-- The keys of a map that may be nil. -/
def mapKeys {ν : Type} : Option (List (String × ν)) → List String
  | none => []
  | some m => m.map Prod.fst

/-- Reading a map that may be nil: a nil map has no entry. -/
def lookup {ν : Type} : Option (List (String × ν)) → String → Option ν
  | none, _ => none
  | some m, k => mapGet m k

namespace metav1

/-- The struct `metav1.ObjectMeta`. -/
structure ObjectMeta where
  Name : String := ""
  Namespace : String := ""
  UID : String := ""
  ResourceVersion : String := ""
  Generation : Int := 0
  Labels : Option StrMap := none
  Annotations : Option StrMap := none
  deriving DecidableEq, Repr

/-- The struct `metav1.LabelSelector`. -/
structure LabelSelector where
  MatchLabels : Option StrMap := none
  deriving DecidableEq, Repr

/-- A wall-clock reading, as `metav1.Now()` returns it. -/
structure Time where
  Year : Nat
  Month : Nat
  Day : Nat
  Hour : Nat
  Minute : Nat
  Second : Nat
  deriving DecidableEq, Repr

end metav1

namespace resource

/-- The struct `resource.Quantity`; its zero value is the default. -/
structure Quantity where
  value : Int := 0
  format : String := ""
  deriving DecidableEq, Repr

end resource

namespace intstr

/-- The type `intstr.IntOrString`. -/
inductive IntOrString where
  | int (v : Int)
  | str (s : String)
  deriving DecidableEq, Repr

/-- The function `intstr.FromInt`. -/
def FromInt (v : Int) : IntOrString := .int v

end intstr

namespace corev1

/-- The struct `corev1.EnvVar`. -/
structure EnvVar where
  Name : String := ""
  Value : String := ""
  deriving DecidableEq, Repr

/-- The struct `corev1.ContainerPort`. -/
structure ContainerPort where
  Name : String := ""
  ContainerPort : Int := 0
  Protocol : String := ""
  deriving DecidableEq, Repr

/-- The constant `corev1.ResourceCPU`. -/
def ResourceCPU : String := "cpu"

/-- The constant `corev1.ResourceMemory`. -/
def ResourceMemory : String := "memory"

/-- The type `corev1.ResourceList`, a map from resource name to quantity. -/
abbrev ResourceList := List (String × resource.Quantity)

/-- The struct `corev1.ResourceRequirements`. -/
structure ResourceRequirements where
  Limits : Option ResourceList := none
  Requests : Option ResourceList := none
  deriving DecidableEq, Repr

/-- The struct `corev1.Container`. -/
structure Container where
  Name : String := ""
  Image : String := ""
  Ports : List ContainerPort := []
  Env : List EnvVar := []
  Resources : ResourceRequirements := {}
  deriving DecidableEq, Repr

/-- The struct `corev1.PodSpec`. -/
structure PodSpec where
  Containers : List Container := []
  deriving DecidableEq, Repr

/-- The struct `corev1.PodTemplateSpec`. -/
structure PodTemplateSpec where
  ObjectMeta : metav1.ObjectMeta := {}
  Spec : PodSpec := {}
  deriving DecidableEq, Repr

/-- The struct `corev1.ServicePort`. -/
structure ServicePort where
  Name : String := ""
  Port : Int := 0
  TargetPort : intstr.IntOrString := .int 0
  Protocol : String := ""
  deriving DecidableEq, Repr

/-- The constant `corev1.ServiceTypeClusterIP`. -/
def ServiceTypeClusterIP : String := "ClusterIP"

/-- The struct `corev1.ServiceSpec`; `ServiceType` is its field `Type`. -/
structure ServiceSpec where
  Selector : Option StrMap := none
  Ports : List ServicePort := []
  ServiceType : String := ""
  ClusterIP : String := ""
  deriving DecidableEq, Repr

/-- The struct `corev1.Service`. -/
structure Service where
  ObjectMeta : metav1.ObjectMeta := {}
  Spec : ServiceSpec := {}
  deriving DecidableEq, Repr

end corev1

namespace appsv1

/-- The struct `appsv1.DeploymentSpec`; `Replicas` is a pointer. -/
structure DeploymentSpec where
  Replicas : Option Int := none
  Selector : Option metav1.LabelSelector := none
  Template : corev1.PodTemplateSpec := {}
  deriving DecidableEq, Repr

/-- The struct `appsv1.DeploymentStatus`. -/
structure DeploymentStatus where
  ObservedGeneration : Int := 0
  Replicas : Int := 0
  ReadyReplicas : Int := 0
  deriving DecidableEq, Repr

/-- The struct `appsv1.Deployment`. -/
structure Deployment where
  ObjectMeta : metav1.ObjectMeta := {}
  Spec : DeploymentSpec := {}
  Status : DeploymentStatus := {}
  deriving DecidableEq, Repr

end appsv1

/-! ## The cluster seen by the repository -/

/-- The reason of an error of the Kubernetes API or of its client. -/
inductive StatusReason where
  | NotFound
  | Forbidden
  | Conflict
  | InternalError
  | Unknown
  deriving DecidableEq, Repr

/-- An error returned by the Kubernetes client library. -/
structure ApiError where
  reason : StatusReason
  text : String
  deriving DecidableEq, Repr

/-- One call on the typed clients `Deployments(ns)` and `Services(ns)`. -/
inductive ApiCall where
  | GetDeployment (ns : String) (name : String)
  | CreateDeployment (ns : String) (obj : appsv1.Deployment)
  | UpdateDeployment (ns : String) (obj : appsv1.Deployment)
  | GetService (ns : String) (name : String)
  | CreateService (ns : String) (obj : corev1.Service)
  | UpdateService (ns : String) (obj : corev1.Service)
  deriving DecidableEq, Repr

/-- The world outside the repository. `defaultKubeconfig` is the value of
`filepath.Join(os.Getenv("HOME"), ".kube", "config")`; `clientConfig` and
`newForConfig` give the error, if any, of loading the kubeconfig at a path and
of making a client from it; the last three give the outcome of a call on the
API after the calls already made. -/
structure Cluster where
  defaultKubeconfig : String
  clientConfig : String → Option ApiError
  newForConfig : String → Option ApiError
  getDeployment : List ApiCall → String → String → Except ApiError appsv1.Deployment
  getService : List ApiCall → String → String → Except ApiError corev1.Service
  write : List ApiCall → ApiCall → Option ApiError

/-- What a method of the repository has done so far: the API calls made and
the lines logged, both oldest first. -/
structure Session where
  api : List ApiCall
  logs : List LogEntry
  deriving DecidableEq, Repr

/-- The state before a method of the repository is entered. -/
def Session.start : Session := ⟨[], []⟩

/-- Record a line logged at level Info. -/
def Session.info (s : Session) (text : String) : Session :=
  { s with logs := s.logs ++ [⟨LogLevel.Info, text⟩] }

/-- Record a call made on the API. -/
def Session.called (s : Session) (c : ApiCall) : Session :=
  { s with api := s.api ++ [c] }

/-- The errors of the repository: made here, or handed in by the client. -/
abbrev DataError := GoError ApiError

/-! ## The repository (`internal/data/deploy.go`) -/

/-- The function `parseQuantity`: the argument is not read and the zero
`Quantity` is returned. -/
def parseQuantity (_s : String) : resource.Quantity := {}

/-- The `Requests` (or `Limits`) block of `buildDeployment`: nil when both
strings are empty, otherwise a fresh map that gets the entries of the non-empty
strings, cpu first. -/
def buildResourceList (cpu memory : String) : Option corev1.ResourceList :=
  if cpu ≠ "" ∨ memory ≠ "" then
    let m0 : corev1.ResourceList := []
    let m1 := if cpu ≠ "" then mapSet m0 corev1.ResourceCPU (parseQuantity cpu) else m0
    let m2 := if memory ≠ "" then mapSet m1 corev1.ResourceMemory (parseQuantity memory)
      else m1
    some m2
  else none

/-- The method `buildDeployment`. -/
def buildDeployment (config : K8sConfig) : appsv1.Deployment :=
  let labels : StrMap := [("app", config.DeploymentName)]
  let envVars : List corev1.EnvVar :=
    config.EnvVars.map fun env => { Name := env.Name, Value := env.Value }
  let ports : List corev1.ContainerPort :=
    config.Ports.map fun port =>
      { Name := port.Name, ContainerPort := port.TargetPort, Protocol := port.Protocol }
  let resources : corev1.ResourceRequirements :=
    match config.Resources with
    | none => {}
    | some r =>
      { Requests := buildResourceList r.CPURequest r.MemoryRequest,
        Limits := buildResourceList r.CPULimit r.MemoryLimit }
  { ObjectMeta :=
      { Name := config.DeploymentName, Namespace := config.Namespace, Labels := some labels },
    Spec :=
      { Replicas := some config.Replicas,
        Selector := some { MatchLabels := some labels },
        Template :=
          { ObjectMeta := { Labels := some labels },
            Spec :=
              { Containers :=
                  [{ Name := config.DeploymentName, Image := "", Ports := ports,
                     Env := envVars, Resources := resources }] } } } }

/-- The method `buildService`. -/
def buildService (config : K8sConfig) : corev1.Service :=
  let labels : StrMap := [("app", config.DeploymentName)]
  let ports : List corev1.ServicePort :=
    config.Ports.map fun port =>
      { Name := port.Name, Port := port.Port,
        TargetPort := intstr.FromInt port.TargetPort, Protocol := port.Protocol }
  { ObjectMeta :=
      { Name := config.ServiceName, Namespace := config.Namespace, Labels := some labels },
    Spec :=
      { Selector := some labels, Ports := ports,
        ServiceType := corev1.ServiceTypeClusterIP } }

/-- The method `createK8sClient`: the given path, or the default one when it
is empty, is loaded and a client is made from it. -/
def createK8sClient (cl : Cluster) (kubeconfigPath : String) : Option DataError :=
  let path := if kubeconfigPath ≠ "" then kubeconfigPath else cl.defaultKubeconfig
  match cl.clientConfig path with
  | some err => some (.wrapf "加载 kubeconfig 失败: " (.foreign err))
  | none =>
    match cl.newForConfig path with
    | some err => some (.wrapf "创建 Kubernetes 客户端失败: " (.foreign err))
    | none => none

/-- The method `ApplyK8sDeployment`. -/
def ApplyK8sDeployment (cl : Cluster) (config : K8sConfig) (s : Session) :
    Option DataError × Session :=
  let s0 := s.info ("应用 Kubernetes Deployment: " ++ config.DeploymentName)
  match createK8sClient cl config.KubeconfigPath with
  | some err => (some (.wrapf "创建 Kubernetes 客户端失败: " err), s0)
  | none =>
    let deployment := buildDeployment config
    let s1 := s0.called (.GetDeployment config.Namespace config.DeploymentName)
    match cl.getDeployment s0.api config.Namespace config.DeploymentName with
    | .error _ =>
      let s2 := s1.called (.CreateDeployment config.Namespace deployment)
      match cl.write s1.api (.CreateDeployment config.Namespace deployment) with
      | some err => (some (.wrapf "创建 Deployment 失败: " (.foreign err)), s2)
      | none => (none, s2.info "Deployment 创建成功")
    | .ok _ =>
      let s2 := s1.called (.UpdateDeployment config.Namespace deployment)
      match cl.write s1.api (.UpdateDeployment config.Namespace deployment) with
      | some err => (some (.wrapf "更新 Deployment 失败: " (.foreign err)), s2)
      | none => (none, s2.info "Deployment 更新成功")

/-- The method `ApplyK8sService`. -/
def ApplyK8sService (cl : Cluster) (config : K8sConfig) (s : Session) :
    Option DataError × Session :=
  let s0 := s.info ("应用 Kubernetes Service: " ++ config.ServiceName)
  match createK8sClient cl config.KubeconfigPath with
  | some err => (some (.wrapf "创建 Kubernetes 客户端失败: " err), s0)
  | none =>
    let service := buildService config
    let s1 := s0.called (.GetService config.Namespace config.ServiceName)
    match cl.getService s0.api config.Namespace config.ServiceName with
    | .error _ =>
      let s2 := s1.called (.CreateService config.Namespace service)
      match cl.write s1.api (.CreateService config.Namespace service) with
      | some err => (some (.wrapf "创建 Service 失败: " (.foreign err)), s2)
      | none => (none, s2.info "Service 创建成功")
    | .ok _ =>
      let s2 := s1.called (.UpdateService config.Namespace service)
      match cl.write s1.api (.UpdateService config.Namespace service) with
      | some err => (some (.wrapf "更新 Service 失败: " (.foreign err)), s2)
      | none => (none, s2.info "Service 更新成功")

/-- A number in decimal, padded with zeros on the left to a width. -/
def padZero (width n : Nat) : String :=
  String.mk (List.replicate (width - (Nat.repr n).length) '0') ++ Nat.repr n

/-- The call `Format("2006-01-02T15:04:05Z")` on a time: the layout ends in a
literal `Z`. -/
def metav1.Time.Format (t : metav1.Time) : String :=
  padZero 4 t.Year ++ "-" ++ padZero 2 t.Month ++ "-" ++ padZero 2 t.Day ++ "T"
    ++ padZero 2 t.Hour ++ ":" ++ padZero 2 t.Minute ++ ":" ++ padZero 2 t.Second ++ "Z"

/-- The annotation `UpdateK8sVersion` writes. -/
def restartedAtKey : String := "kubectl.kubernetes.io/restartedAt"

/-- The lines of `UpdateK8sVersion` that change the fetched object: the
annotation map of the pod template is made if it is nil, and the restart
annotation is assigned the time stamp. -/
def stampRestart (deployment : appsv1.Deployment) (stamp : String) :
    appsv1.Deployment :=
  let annotations : StrMap :=
    match deployment.Spec.Template.ObjectMeta.Annotations with
    | none => []
    | some m => m
  { deployment with
    Spec := { deployment.Spec with
      Template := { deployment.Spec.Template with
        ObjectMeta := { deployment.Spec.Template.ObjectMeta with
          Annotations := some (mapSet annotations restartedAtKey stamp) } } } }

/-- The method `UpdateK8sVersion`; `now` is the reading of `metav1.Now()`. -/
def UpdateK8sVersion (cl : Cluster) (now : metav1.Time) (config : K8sConfig)
    (s : Session) : Option DataError × Session :=
  let s0 := s.info "更新 Kubernetes 版本"
  match createK8sClient cl config.KubeconfigPath with
  | some err => (some (.wrapf "创建 Kubernetes 客户端失败: " err), s0)
  | none =>
    let s1 := s0.called (.GetDeployment config.Namespace config.DeploymentName)
    match cl.getDeployment s0.api config.Namespace config.DeploymentName with
    | .error err => (some (.wrapf "获取 Deployment 失败: " (.foreign err)), s1)
    | .ok deployment =>
      let updated := stampRestart deployment now.Format
      let s2 := s1.called (.UpdateDeployment config.Namespace updated)
      match cl.write s1.api (.UpdateDeployment config.Namespace updated) with
      | some err => (some (.wrapf "重启 Deployment 失败: " (.foreign err)), s2)
      | none => (none, s2.info "Kubernetes 版本更新成功")

/-! ## The command (`cmd/go-drone-deploy/main.go`) -/

/-- The default value `init` gives the flag `-flow`. -/
def flagflowDefault : String := "all"

/-- The usage text `init` gives the flag `-flow`. -/
def flagflowUsage : String := "部署流程 (all/docker/k8s/notify/standard)"

/-- The switch on `flagflow` in `main` (the block that maps the flow name):
the `DeployFlow` chosen, or the text of the `Fatalf` of its `default` branch,
which ends the process before `Deploy` is called. -/
def mapFlowName (flagflow : String) : Except String DeployFlow :=
  if flagflow = "full" then .ok FlowAll
  else if flagflow = "docker" then .ok FlowDocker
  else if flagflow = "k8s" then .ok FlowK8s
  else if flagflow = "notify" then .ok FlowNotify
  else if flagflow = "standard" then .ok FlowStandard
  else .error ("不支持的部署流程: " ++ flagflow)

/-! ## Predicates and sample values used by the statements -/

/-- The text under which the use case wraps the error of a mandatory
repository call (the first argument of `fmt.Errorf` at the call site). -/
def stepFailureText : RepoOp → String
  | .BuildDockerImage => "构建 Docker 镜像失败: "
  | .PushDockerImage => "推送 Docker 镜像失败: "
  | .ApplyK8sDeployment => "部署 Kubernetes Deployment 失败: "
  | .ApplyK8sService => "部署 Kubernetes Service 失败: "
  | .UpdateK8sVersion => "更新 Kubernetes 版本失败: "
  | .SendNotification => ""

/-- What C2 asks of a finished run: a mandatory call that failed is the last
call made, and the error returned wraps its error under the text of its step,
directly or below one more text. -/
def AbortsAtFailure (repo : DeployRepo) (r : Option DeployError × Run) : Prop :=
  ∀ (i : Nat) (c : RepoCall) (e : RepoError),
    r.2.calls[i]? = some c → c.op ≠ RepoOp.SendNotification →
    repo (r.2.calls.take i) c = some e →
    r.2.calls.length = i + 1 ∧
    (r.1 = some (.wrapf (stepFailureText c.op) (.foreign e)) ∨
      ∃ pre, r.1 = some (.wrapf pre (.wrapf (stepFailureText c.op) (.foreign e))))

/-- The Docker config `main` builds. -/
def mainDocker : DockerConfig :=
  { Registry := "docker.io", Username := "", Password := "",
    ImageName := "example-app:latest", DockerfilePath := "./Dockerfile",
    BuildContext := "." }

/-- The Kubernetes config `main` builds. -/
def mainK8s : K8sConfig :=
  { KubeconfigPath := "", Namespace := "default", DeploymentName := "example-app",
    ServiceName := "example-app-service", Replicas := 1, Resources := none,
    Ports := [{ Name := "http", Port := 80, TargetPort := 8080, Protocol := "TCP" }],
    EnvVars := [] }

/-- The config `main` builds (with the default `-env`); it has no notification
config. -/
def mainConfig : DeployConfig :=
  { ProjectName := "example-app", Author := "drone-deploy", Namespace := "default",
    Version := "latest", Env := "dev", Docker := some mainDocker, K8s := some mainK8s,
    Notify := none }

/-- An enabled notification config. -/
def hookNotify : NotifyConfig :=
  { Enabled := true, WebhookURL := "https://hooks.example.com/T1", Channel := "#deploy" }

/-- The config of `main` with the enabled notification config added. -/
def notifyingConfig : DeployConfig := { mainConfig with Notify := some hookNotify }

/-- A repository on which every call succeeds. -/
def okRepo : DeployRepo := fun _ _ => none

/-- A repository whose `BuildDockerImage` fails and whose other calls succeed. -/
def buildFailsRepo : DeployRepo := fun _ c =>
  match c with
  | .BuildDockerImage _ => some ⟨"exit status 1"⟩
  | _ => none

/-- A repository whose `SendNotification` fails and whose other calls succeed. -/
def notifyFailsRepo : DeployRepo := fun _ c =>
  match c with
  | .SendNotification _ _ => some ⟨"通知发送失败，状态码: 503"⟩
  | _ => none

/-- The five values of `DeployFlow` the constant block declares. -/
def supportedFlows : List DeployFlow :=
  [FlowAll, FlowDocker, FlowK8s, FlowNotify, FlowStandard]

/-- The error of the `default` branch of the switch in `Deploy`. -/
def unsupportedFlowError (flow : DeployFlow) : DeployError :=
  .errorf ("不支持的部署流程: " ++ flow)

/-- A disabled notification config. -/
def mutedNotify : NotifyConfig := { hookNotify with Enabled := false }

/-- Two workload objects agree in every field but, possibly, the value of the
restart annotation of the pod template: same metadata, status, replica count,
selector and pod spec, same pod-template metadata outside the annotations, and
the same value under every other annotation key. -/
def SameExceptRestartStamp (a b : appsv1.Deployment) : Prop :=
  a.ObjectMeta = b.ObjectMeta ∧ a.Status = b.Status ∧
  a.Spec.Replicas = b.Spec.Replicas ∧ a.Spec.Selector = b.Spec.Selector ∧
  a.Spec.Template.Spec = b.Spec.Template.Spec ∧
  { a.Spec.Template.ObjectMeta with Annotations := none }
    = { b.Spec.Template.ObjectMeta with Annotations := none } ∧
  ∀ key, key ≠ restartedAtKey →
    lookup a.Spec.Template.ObjectMeta.Annotations key
      = lookup b.Spec.Template.ObjectMeta.Annotations key

/-- The rule by which Kubernetes matches a selector given as a label set
against the labels of an object: every entry of the selector is a label of the
object. -/
def selectorMatches (selector labels : Option StrMap) : Bool :=
  match selector with
  | none => true
  | some sel => sel.all fun kv => decide (lookup labels kv.1 = some kv.2)

/-- A reachable cluster that holds no object: every Get answers NotFound and
every write succeeds. -/
def emptyCluster : Cluster :=
  { defaultKubeconfig := "/root/.kube/config",
    clientConfig := fun _ => none,
    newForConfig := fun _ => none,
    getDeployment := fun _ _ name =>
      .error ⟨.NotFound, "deployments.apps \"" ++ name ++ "\" not found"⟩,
    getService := fun _ _ name => .error ⟨.NotFound, "services \"" ++ name ++ "\" not found"⟩,
    write := fun _ _ => none }

/-- A workload object as a cluster returns it: the object `main` asks for,
with the identity the server gave it and an annotation on its pod template. -/
def liveDeployment : appsv1.Deployment :=
  { ObjectMeta :=
      { Name := "example-app", Namespace := "default", UID := "7c1d", ResourceVersion := "41",
        Generation := 3, Labels := some [("app", "example-app")] },
    Spec :=
      { Replicas := some 2,
        Selector := some { MatchLabels := some [("app", "example-app")] },
        Template :=
          { ObjectMeta :=
              { Labels := some [("app", "example-app")],
                Annotations := some [("team", "web")] },
            Spec := { Containers := [{ Name := "example-app", Image := "example-app:1.2.3" }] } } },
    Status := { ObservedGeneration := 3, Replicas := 2, ReadyReplicas := 2 } }

/-- A network object as a cluster returns it. -/
def liveService : corev1.Service :=
  { ObjectMeta :=
      { Name := "example-app-service", Namespace := "default", UID := "9e02",
        ResourceVersion := "17", Labels := some [("app", "example-app")] },
    Spec :=
      { Selector := some [("app", "example-app")], ServiceType := "ClusterIP",
        ClusterIP := "10.0.0.12" } }

/-- A reachable cluster that holds both objects and accepts every write. -/
def liveCluster : Cluster :=
  { defaultKubeconfig := "/root/.kube/config",
    clientConfig := fun _ => none,
    newForConfig := fun _ => none,
    getDeployment := fun _ _ _ => .ok liveDeployment,
    getService := fun _ _ _ => .ok liveService,
    write := fun _ _ => none }

/-- A reachable cluster whose Get calls are refused (the account may create
and update, not read) and whose writes succeed. -/
def forbiddenCluster : Cluster :=
  { defaultKubeconfig := "/root/.kube/config",
    clientConfig := fun _ => none,
    newForConfig := fun _ => none,
    getDeployment := fun _ _ _ => .error ⟨.Forbidden, "deployments.apps is forbidden"⟩,
    getService := fun _ _ _ => .error ⟨.Forbidden, "services is forbidden"⟩,
    write := fun _ _ => none }

/-- A clock reading. -/
def noon : metav1.Time :=
  { Year := 2024, Month := 3, Day := 9, Hour := 12, Minute := 0, Second := 5 }

/-- A later clock reading. -/
def evening : metav1.Time :=
  { Year := 2024, Month := 3, Day := 9, Hour := 18, Minute := 30, Second := 0 }

/-- The flow names the usage text of `-flow` lists, in its order. -/
def advertisedFlows : List String := ["all", "docker", "k8s", "notify", "standard"]

/-- The keys a `Requests` or `Limits` map is to hold for a pair of quantity
strings: `cpu` for a non-empty first string, `memory` for a non-empty second. -/
def resourceKeysFor (cpu memory : String) : List String :=
  (if cpu ≠ "" then [corev1.ResourceCPU] else [])
    ++ (if memory ≠ "" then [corev1.ResourceMemory] else [])

/-- The config of `main` asking for half a CPU and nothing else. -/
def cpuOnlyK8s : K8sConfig :=
  { mainK8s with
    Resources := some { CPURequest := "500m", MemoryRequest := "", CPULimit := "",
                        MemoryLimit := "" } }

/-- The number of writes of a workload object among the calls made. -/
def deploymentWrites : List ApiCall → Nat
  | [] => 0
  | .CreateDeployment _ _ :: rest => deploymentWrites rest + 1
  | .UpdateDeployment _ _ :: rest => deploymentWrites rest + 1
  | _ :: rest => deploymentWrites rest

/-- The workload object the latest Create or Update among the calls made
sent, if there is one. -/
def storedDeployment : List ApiCall → Option appsv1.Deployment
  | [] => none
  | c :: rest =>
    match storedDeployment rest with
    | some d => some d
    | none =>
      match c with
      | .CreateDeployment _ obj => some obj
      | .UpdateDeployment _ obj => some obj
      | _ => none

/-- A reachable cluster that stores what it is sent, as an API server does:
it holds `liveDeployment` at first, accepts every write, and answers a Get
with the object last written, its resource version and generation raised by
one for each write. -/
def storingCluster : Cluster :=
  { defaultKubeconfig := "/root/.kube/config",
    clientConfig := fun _ => none,
    newForConfig := fun _ => none,
    getDeployment := fun h _ _ =>
      match storedDeployment h with
      | none => .ok liveDeployment
      | some d =>
        .ok { d with
          ObjectMeta := { d.ObjectMeta with
            ResourceVersion := Nat.repr (41 + deploymentWrites h),
            Generation := 3 + (deploymentWrites h : Int) } },
    getService := fun _ _ _ => .ok liveService,
    write := fun _ _ => none }

/-- The object `storingCluster` returns once the restart of `noon` is stored. -/
def restartedAtNoon : appsv1.Deployment :=
  { stampRestart liveDeployment "2024-03-09T12:00:05Z" with
    ObjectMeta := { liveDeployment.ObjectMeta with ResourceVersion := "42", Generation := 4 } }

/-! ## Theorems: the flow orchestrator -/

/-- C1. With Docker and K8s configs present, an enabled notification config and
a repository whose every operation succeeds, `Deploy` returns `nil` for each of
the five flows and the calls made on the repository are exactly the static
sequence of the flow, each call once, in order, with no other call. -/
theorem Deploy_runs_static_sequence (repo : DeployRepo) (config : DeployConfig)
    (d : DockerConfig) (k : K8sConfig) (n : NotifyConfig)
    (hd : config.Docker = some d) (hk : config.K8s = some k)
    (hn : config.Notify = some n) (he : n.Enabled = true)
    (hrepo : ∀ h c, repo h c = none) :
    ((Deploy repo config FlowAll Run.start).1 = none ∧
      (Deploy repo config FlowAll Run.start).2.calls =
        [.BuildDockerImage d, .PushDockerImage d, .ApplyK8sDeployment k,
          .ApplyK8sService k, .UpdateK8sVersion k,
          .SendNotification n (notifyMessage config)]) ∧
    ((Deploy repo config FlowStandard Run.start).1 = none ∧
      (Deploy repo config FlowStandard Run.start).2.calls =
        [.BuildDockerImage d, .PushDockerImage d, .ApplyK8sDeployment k,
          .ApplyK8sService k, .UpdateK8sVersion k]) ∧
    ((Deploy repo config FlowDocker Run.start).1 = none ∧
      (Deploy repo config FlowDocker Run.start).2.calls =
        [.BuildDockerImage d, .PushDockerImage d]) ∧
    ((Deploy repo config FlowK8s Run.start).1 = none ∧
      (Deploy repo config FlowK8s Run.start).2.calls =
        [.ApplyK8sDeployment k, .ApplyK8sService k, .UpdateK8sVersion k]) ∧
    ((Deploy repo config FlowNotify Run.start).1 = none ∧
      (Deploy repo config FlowNotify Run.start).2.calls =
        [.SendNotification n (notifyMessage config)]) := by
  simp [Deploy, deployAll, deployStandard, deployDocker, deployK8s, deployNotify,
    FlowAll, FlowDocker, FlowK8s, FlowNotify, FlowStandard, Run.start, Run.info,
    Run.called, hd, hk, hn, he, hrepo]

/-- The four ways `deployDocker` can end, with the calls it made. -/
theorem deployDocker_outcome (repo : DeployRepo) (config : DeployConfig) (w : Run) :
    ((deployDocker repo config w).1 = some (.errorf "Docker 配置为空") ∧
      (deployDocker repo config w).2.calls = w.calls) ∨
    (∃ d e, repo w.calls (.BuildDockerImage d) = some e ∧
      (deployDocker repo config w).1
        = some (.wrapf (stepFailureText .BuildDockerImage) (.foreign e)) ∧
      (deployDocker repo config w).2.calls = w.calls ++ [.BuildDockerImage d]) ∨
    (∃ d e, repo w.calls (.BuildDockerImage d) = none ∧
      repo (w.calls ++ [.BuildDockerImage d]) (.PushDockerImage d) = some e ∧
      (deployDocker repo config w).1
        = some (.wrapf (stepFailureText .PushDockerImage) (.foreign e)) ∧
      (deployDocker repo config w).2.calls
        = w.calls ++ [.BuildDockerImage d, .PushDockerImage d]) ∨
    (∃ d, repo w.calls (.BuildDockerImage d) = none ∧
      repo (w.calls ++ [.BuildDockerImage d]) (.PushDockerImage d) = none ∧
      (deployDocker repo config w).1 = none ∧
      (deployDocker repo config w).2.calls
        = w.calls ++ [.BuildDockerImage d, .PushDockerImage d]) := by
  unfold deployDocker
  rcases hD : config.Docker with _ | d
  · simp
  · rcases h1 : repo w.calls (.BuildDockerImage d) with _ | e1
    · rcases h2 : repo (w.calls ++ [.BuildDockerImage d]) (.PushDockerImage d) with _ | e2
      · exact Or.inr (Or.inr (Or.inr ⟨d, h1, h2, by
          simp [Run.info, Run.called, h1, h2]⟩))
      · exact Or.inr (Or.inr (Or.inl ⟨d, e2, h1, h2, by
          simp [Run.info, Run.called, h1, h2, stepFailureText]⟩))
    · exact Or.inr (Or.inl ⟨d, e1, h1, by
        simp [Run.info, Run.called, h1, stepFailureText]⟩)

/-- The five ways `deployK8s` can end, with the calls it made. -/
theorem deployK8s_outcome (repo : DeployRepo) (config : DeployConfig) (w : Run) :
    ((deployK8s repo config w).1 = some (.errorf "Kubernetes 配置为空") ∧
      (deployK8s repo config w).2.calls = w.calls) ∨
    (∃ k e, repo w.calls (.ApplyK8sDeployment k) = some e ∧
      (deployK8s repo config w).1
        = some (.wrapf (stepFailureText .ApplyK8sDeployment) (.foreign e)) ∧
      (deployK8s repo config w).2.calls = w.calls ++ [.ApplyK8sDeployment k]) ∨
    (∃ k e, repo w.calls (.ApplyK8sDeployment k) = none ∧
      repo (w.calls ++ [.ApplyK8sDeployment k]) (.ApplyK8sService k) = some e ∧
      (deployK8s repo config w).1
        = some (.wrapf (stepFailureText .ApplyK8sService) (.foreign e)) ∧
      (deployK8s repo config w).2.calls
        = w.calls ++ [.ApplyK8sDeployment k, .ApplyK8sService k]) ∨
    (∃ k e, repo w.calls (.ApplyK8sDeployment k) = none ∧
      repo (w.calls ++ [.ApplyK8sDeployment k]) (.ApplyK8sService k) = none ∧
      repo (w.calls ++ [.ApplyK8sDeployment k, .ApplyK8sService k])
        (.UpdateK8sVersion k) = some e ∧
      (deployK8s repo config w).1
        = some (.wrapf (stepFailureText .UpdateK8sVersion) (.foreign e)) ∧
      (deployK8s repo config w).2.calls
        = w.calls ++ [.ApplyK8sDeployment k, .ApplyK8sService k, .UpdateK8sVersion k]) ∨
    (∃ k, repo w.calls (.ApplyK8sDeployment k) = none ∧
      repo (w.calls ++ [.ApplyK8sDeployment k]) (.ApplyK8sService k) = none ∧
      repo (w.calls ++ [.ApplyK8sDeployment k, .ApplyK8sService k])
        (.UpdateK8sVersion k) = none ∧
      (deployK8s repo config w).1 = none ∧
      (deployK8s repo config w).2.calls
        = w.calls ++ [.ApplyK8sDeployment k, .ApplyK8sService k, .UpdateK8sVersion k]) := by
  unfold deployK8s
  rcases hK : config.K8s with _ | k
  · simp
  · rcases h1 : repo w.calls (.ApplyK8sDeployment k) with _ | e1
    · rcases h2 : repo (w.calls ++ [.ApplyK8sDeployment k]) (.ApplyK8sService k) with _ | e2
      · rcases h3 : repo (w.calls ++ [.ApplyK8sDeployment k, .ApplyK8sService k])
          (.UpdateK8sVersion k) with _ | e3
        · exact Or.inr (Or.inr (Or.inr (Or.inr ⟨k, h1, h2, h3, by
            simp [Run.info, Run.called, h1, h2, h3]⟩)))
        · exact Or.inr (Or.inr (Or.inr (Or.inl ⟨k, e3, h1, h2, h3, by
            simp [Run.info, Run.called, h1, h2, h3, stepFailureText]⟩)))
      · exact Or.inr (Or.inr (Or.inl ⟨k, e2, h1, h2, by
          simp [Run.info, Run.called, h1, h2, stepFailureText]⟩))
    · exact Or.inr (Or.inl ⟨k, e1, h1, by
        simp [Run.info, Run.called, h1, stepFailureText]⟩)

/-- The calls `deployNotify` makes: none, or the one `SendNotification`. -/
theorem deployNotify_calls (repo : DeployRepo) (config : DeployConfig) (w : Run) :
    (deployNotify repo config w).2.calls = w.calls ∨
    ∃ n, (deployNotify repo config w).2.calls
      = w.calls ++ [.SendNotification n (notifyMessage config)] := by
  unfold deployNotify
  rcases hN : config.Notify with _ | n
  · simp [Run.info]
  · by_cases he : n.Enabled = false <;> simp [Run.info, Run.called, he]

theorem deployDocker_aborts (repo : DeployRepo) (config : DeployConfig) (w : Run)
    (hw : w.calls = []) : AbortsAtFailure repo (deployDocker repo config w) := by
  intro i c e hc hm hfail
  rcases deployDocker_outcome repo config w with ⟨h1, h2⟩ | ⟨d, e1, hb, h1, h2⟩ |
    ⟨d, e1, hb, hp, h1, h2⟩ | ⟨d, hb, hp, h1, h2⟩
  all_goals
    rw [hw] at *
    rw [h2] at hc hfail
    rw [h1, h2]
    rcases i with _ | _ | i <;> simp at hc <;> (try subst hc) <;> simp_all [RepoCall.op]

theorem deployK8s_aborts (repo : DeployRepo) (config : DeployConfig) (w : Run)
    (hw : w.calls = []) : AbortsAtFailure repo (deployK8s repo config w) := by
  intro i c e hc hm hfail
  rcases deployK8s_outcome repo config w with ⟨h1, h2⟩ | ⟨k, e1, ha, h1, h2⟩ |
    ⟨k, e1, ha, hs, h1, h2⟩ | ⟨k, e1, ha, hs, hu, h1, h2⟩ | ⟨k, ha, hs, hu, h1, h2⟩
  all_goals
    rw [hw] at *
    rw [h2] at hc hfail
    rw [h1, h2]
    rcases i with _ | _ | _ | i <;> simp at hc <;> (try subst hc) <;> simp_all [RepoCall.op]

theorem deployStandard_aborts (repo : DeployRepo) (config : DeployConfig) (w : Run)
    (hw : w.calls = []) : AbortsAtFailure repo (deployStandard repo config w) := by
  unfold AbortsAtFailure deployStandard
  have hD := deployDocker_outcome repo config w
  rcases hdd : deployDocker repo config w with ⟨r1, w1⟩
  rw [hdd, hw] at hD
  simp only [List.nil_append] at hD
  rcases hD with ⟨h1, h2⟩ | ⟨d, e1, hb, h1, h2⟩ | ⟨d, e1, hb, hp, h1, h2⟩ | ⟨d, hb, hp, h1, h2⟩
  · subst h1
    intro i c e hc hm hfail
    simp only [h2] at hc hfail ⊢
    simp at hc
  · subst h1
    intro i c e hc hm hfail
    simp only [h2] at hc hfail ⊢
    rcases i with _ | i <;> simp at hc
    subst hc
    simp_all [RepoCall.op]
  · subst h1
    intro i c e hc hm hfail
    simp only [h2] at hc hfail ⊢
    rcases i with _ | _ | i <;> simp at hc <;> (try subst hc) <;> simp_all [RepoCall.op]
  · subst h1
    dsimp only
    have hK := deployK8s_outcome repo config w1
    rcases hkk : deployK8s repo config w1 with ⟨r2, w2⟩
    rw [hkk, h2] at hK
    simp only [List.cons_append, List.nil_append] at hK
    rcases hK with ⟨g1, g2⟩ | ⟨k, e1, ha, g1, g2⟩ | ⟨k, e1, ha, hs, g1, g2⟩ |
      ⟨k, e1, ha, hs, hu, g1, g2⟩ | ⟨k, ha, hs, hu, g1, g2⟩
    all_goals
      subst g1
      intro i c e hc hm hfail
      simp only [g2] at hc hfail ⊢
      rcases i with _ | _ | _ | _ | _ | i <;> simp at hc <;> (try subst hc) <;>
        simp_all [RepoCall.op]

theorem deployAll_aborts (repo : DeployRepo) (config : DeployConfig) (w : Run)
    (hw : w.calls = []) : AbortsAtFailure repo (deployAll repo config w) := by
  unfold AbortsAtFailure deployAll
  have hD := deployDocker_outcome repo config w
  rcases hdd : deployDocker repo config w with ⟨r1, w1⟩
  rw [hdd, hw] at hD
  simp only [List.nil_append] at hD
  rcases hD with ⟨h1, h2⟩ | ⟨d, e1, hb, h1, h2⟩ | ⟨d, e1, hb, hp, h1, h2⟩ | ⟨d, hb, hp, h1, h2⟩
  · subst h1
    intro i c e hc hm hfail
    simp only [h2] at hc hfail ⊢
    simp at hc
  · subst h1
    intro i c e hc hm hfail
    simp only [h2] at hc hfail ⊢
    rcases i with _ | i <;> simp at hc
    subst hc
    simp_all [RepoCall.op]
  · subst h1
    intro i c e hc hm hfail
    simp only [h2] at hc hfail ⊢
    rcases i with _ | _ | i <;> simp at hc <;> (try subst hc) <;> simp_all [RepoCall.op]
  · subst h1
    dsimp only
    have hK := deployK8s_outcome repo config w1
    rcases hkk : deployK8s repo config w1 with ⟨r2, w2⟩
    rw [hkk, h2] at hK
    simp only [List.cons_append, List.nil_append] at hK
    rcases hK with ⟨g1, g2⟩ | ⟨k, e1, ha, g1, g2⟩ | ⟨k, e1, ha, hs, g1, g2⟩ |
      ⟨k, e1, ha, hs, hu, g1, g2⟩ | ⟨k, ha, hs, hu, g1, g2⟩
    · subst g1
      intro i c e hc hm hfail
      simp only [g2] at hc hfail ⊢
      rcases i with _ | _ | i <;> simp at hc <;> (try subst hc) <;> simp_all [RepoCall.op]
    · subst g1
      intro i c e hc hm hfail
      simp only [g2] at hc hfail ⊢
      rcases i with _ | _ | _ | i <;> simp at hc <;> (try subst hc) <;> simp_all [RepoCall.op]
    · subst g1
      intro i c e hc hm hfail
      simp only [g2] at hc hfail ⊢
      rcases i with _ | _ | _ | _ | i <;> simp at hc <;> (try subst hc) <;>
        simp_all [RepoCall.op]
    · subst g1
      intro i c e hc hm hfail
      simp only [g2] at hc hfail ⊢
      rcases i with _ | _ | _ | _ | _ | i <;> simp at hc <;> (try subst hc) <;>
        simp_all [RepoCall.op]
    · subst g1
      dsimp only
      have hN := deployNotify_calls repo config w2
      rcases hnn : deployNotify repo config w2 with ⟨r3, w3⟩
      rw [hnn, g2] at hN
      simp only [List.cons_append, List.nil_append] at hN
      intro i c e hc hm hfail
      rcases r3 with _ | err <;> rcases hN with g3 | ⟨n, g3⟩ <;>
        simp only [Run.warn, g3] at hc hfail ⊢ <;>
        rcases i with _ | _ | _ | _ | _ | _ | i <;> simp at hc <;> (try subst hc) <;>
        simp_all [RepoCall.op]

/-- C2. Whatever the flow and the config, a mandatory repository call
(`BuildDockerImage`, `PushDockerImage`, `ApplyK8sDeployment`, `ApplyK8sService`,
`UpdateK8sVersion`) that fails during `Deploy` is the last call made, and
`Deploy` returns an error that wraps the error of that call with `%w` under the
text of the failed step, possibly below the text of the stage: the cause is in
the chain of the error (`errors.Is`) and the printed message ends with the step
text followed by the message of the cause. Since every failing mandatory call
ends the run, this covers the case where the first call to fail is mandatory. -/
theorem Deploy_aborts_on_mandatory_failure (repo : DeployRepo) (config : DeployConfig)
    (flow : DeployFlow) (i : Nat) (c : RepoCall) (e : RepoError)
    (hc : (Deploy repo config flow Run.start).2.calls[i]? = some c)
    (hm : c.op ≠ RepoOp.SendNotification)
    (hfail : repo ((Deploy repo config flow Run.start).2.calls.take i) c = some e) :
    ∃ err, (Deploy repo config flow Run.start).1 = some err ∧
      (Deploy repo config flow Run.start).2.calls.length = i + 1 ∧
      err.Is (.foreign e) = true ∧
      ∃ outer, DeployError.text err = outer ++ (stepFailureText c.op ++ e.text) := by
  have key : AbortsAtFailure repo (Deploy repo config flow Run.start) := by
    unfold Deploy
    dsimp only
    split_ifs
    · exact deployAll_aborts repo config _ rfl
    · exact deployDocker_aborts repo config _ rfl
    · exact deployK8s_aborts repo config _ rfl
    · intro i c e hc hm hfail
      rcases deployNotify_calls repo config
        (Run.start.info ("开始部署，项目: " ++ config.ProjectName ++ ", 环境: " ++ config.Env
          ++ ", 流程: " ++ flow)) with g | ⟨n, g⟩
      all_goals
        rw [g] at hc
        rcases i with _ | i <;> simp [Run.start, Run.info] at hc
      subst hc
      simp [RepoCall.op] at hm
    · exact deployStandard_aborts repo config _ rfl
    · intro i c e hc hm hfail
      simp [Run.start, Run.info] at hc
  obtain ⟨hlen, hres⟩ := key i c e hc hm hfail
  rcases hres with h | ⟨pre, h⟩
  · exact ⟨_, h, hlen, by simp [GoError.Is], "", by
      simp [DeployError.text, GoError.Error]⟩
  · exact ⟨_, h, hlen, by simp [GoError.Is], pre, by
      simp [DeployError.text, GoError.Error]⟩

/-- Witness of C1: the config of `main` with an enabled notification config,
on a repository that always succeeds. -/
theorem Deploy_runs_static_sequence_witness :
    (Deploy okRepo notifyingConfig FlowDocker Run.start).1 = none ∧
    (Deploy okRepo notifyingConfig FlowDocker Run.start).2.calls =
      [.BuildDockerImage mainDocker, .PushDockerImage mainDocker] :=
  (Deploy_runs_static_sequence okRepo notifyingConfig mainDocker mainK8s hookNotify
    rfl rfl rfl rfl (fun _ _ => rfl)).2.2.1

/-- Witness of C2: flow `all` with a failing build makes the one call
`BuildDockerImage` and returns an error naming the Docker build step. -/
theorem Deploy_aborts_on_mandatory_failure_witness :
    (Deploy buildFailsRepo notifyingConfig FlowAll Run.start).2.calls
      = [.BuildDockerImage mainDocker] ∧
    ∃ err, (Deploy buildFailsRepo notifyingConfig FlowAll Run.start).1 = some err ∧
      (Deploy buildFailsRepo notifyingConfig FlowAll Run.start).2.calls.length = 0 + 1 ∧
      err.Is (.foreign ⟨"exit status 1"⟩) = true ∧
      ∃ outer, DeployError.text err
        = outer ++ (stepFailureText RepoOp.BuildDockerImage ++ "exit status 1") :=
  ⟨by decide,
    Deploy_aborts_on_mandatory_failure buildFailsRepo notifyingConfig FlowAll 0
      (.BuildDockerImage mainDocker) ⟨"exit status 1"⟩ (by decide) (by decide) (by decide)⟩

/-- C3. Under flow `all`, when the build, the push and the three reconcile
calls succeed and the notification is enabled, a failing `SendNotification`
does not make `Deploy` fail: it returns `nil` after the six calls, and the last
line logged is a warning carrying the message of the notification error. -/
theorem Deploy_all_ignores_notification_failure (repo : DeployRepo)
    (config : DeployConfig) (d : DockerConfig) (k : K8sConfig) (n : NotifyConfig)
    (e : RepoError)
    (hd : config.Docker = some d) (hk : config.K8s = some k)
    (hn : config.Notify = some n) (he : n.Enabled = true)
    (hb : repo [] (.BuildDockerImage d) = none)
    (hp : repo [.BuildDockerImage d] (.PushDockerImage d) = none)
    (ha : repo [.BuildDockerImage d, .PushDockerImage d] (.ApplyK8sDeployment k) = none)
    (hs : repo [.BuildDockerImage d, .PushDockerImage d, .ApplyK8sDeployment k]
      (.ApplyK8sService k) = none)
    (hu : repo [.BuildDockerImage d, .PushDockerImage d, .ApplyK8sDeployment k,
      .ApplyK8sService k] (.UpdateK8sVersion k) = none)
    (hfail : repo [.BuildDockerImage d, .PushDockerImage d, .ApplyK8sDeployment k,
      .ApplyK8sService k, .UpdateK8sVersion k]
      (.SendNotification n (notifyMessage config)) = some e) :
    (Deploy repo config FlowAll Run.start).1 = none ∧
    (Deploy repo config FlowAll Run.start).2.calls =
      [.BuildDockerImage d, .PushDockerImage d, .ApplyK8sDeployment k,
        .ApplyK8sService k, .UpdateK8sVersion k,
        .SendNotification n (notifyMessage config)] ∧
    (Deploy repo config FlowAll Run.start).2.logs.getLast?
      = some ⟨LogLevel.Warn, "通知发送失败: " ++ e.text⟩ := by
  simp [Deploy, deployAll, deployDocker, deployK8s, deployNotify, FlowAll, Run.start,
    Run.info, Run.called, Run.warn, DeployError.text, GoError.Error, hd, hk, hn, he,
    hb, hp, ha, hs, hu, hfail]

/-- Witness of C3: the notifying config on a repository whose notification
fails. -/
theorem Deploy_all_ignores_notification_failure_witness :
    (Deploy notifyFailsRepo notifyingConfig FlowAll Run.start).1 = none ∧
    (Deploy notifyFailsRepo notifyingConfig FlowAll Run.start).2.calls =
      [.BuildDockerImage mainDocker, .PushDockerImage mainDocker,
        .ApplyK8sDeployment mainK8s, .ApplyK8sService mainK8s,
        .UpdateK8sVersion mainK8s,
        .SendNotification hookNotify (notifyMessage notifyingConfig)] ∧
    (Deploy notifyFailsRepo notifyingConfig FlowAll Run.start).2.logs.getLast?
      = some ⟨LogLevel.Warn, "通知发送失败: " ++ "通知发送失败，状态码: 503"⟩ :=
  Deploy_all_ignores_notification_failure notifyFailsRepo notifyingConfig mainDocker
    mainK8s hookNotify ⟨"通知发送失败，状态码: 503"⟩ rfl rfl rfl rfl rfl rfl rfl rfl rfl rfl

/-- C4, as stated, fails: under flow `notify` with an enabled notification
config, the error of a failing `SendNotification` is what `Deploy` returns. -/
theorem Deploy_notify_failure_counterexample :
    notifyingConfig.Notify = some hookNotify ∧ hookNotify.Enabled = true ∧
    notifyFailsRepo [] (.SendNotification hookNotify (notifyMessage notifyingConfig))
      = some ⟨"通知发送失败，状态码: 503"⟩ ∧
    (Deploy notifyFailsRepo notifyingConfig FlowNotify Run.start).1
      = some (.foreign ⟨"通知发送失败，状态码: 503"⟩) ∧
    (Deploy notifyFailsRepo notifyingConfig FlowNotify Run.start).1 ≠ none := by
  decide

/-- C4, amended. Under flow `notify` with an enabled notification config,
`Deploy` makes the one call `SendNotification` and returns its outcome as it
is: `nil` when the call succeeds and, when it fails, the very error of the
call, not wrapped; no warning is logged. -/
theorem Deploy_notify_returns_notification_outcome (repo : DeployRepo)
    (config : DeployConfig) (n : NotifyConfig)
    (hn : config.Notify = some n) (he : n.Enabled = true) :
    (Deploy repo config FlowNotify Run.start).1
      = (repo [] (.SendNotification n (notifyMessage config))).map GoError.foreign ∧
    (Deploy repo config FlowNotify Run.start).2.calls
      = [.SendNotification n (notifyMessage config)] ∧
    ∀ l ∈ (Deploy repo config FlowNotify Run.start).2.logs, l.level ≠ LogLevel.Warn := by
  simp [Deploy, deployNotify, FlowAll, FlowDocker, FlowK8s, FlowNotify, Run.start,
    Run.info, Run.called, hn, he]

/-- Witness of the amended C4: a failing notification under flow `notify`. -/
theorem Deploy_notify_returns_notification_outcome_witness :
    (Deploy notifyFailsRepo notifyingConfig FlowNotify Run.start).1
      = (notifyFailsRepo [] (.SendNotification hookNotify
          (notifyMessage notifyingConfig))).map GoError.foreign ∧
    (Deploy notifyFailsRepo notifyingConfig FlowNotify Run.start).2.calls
      = [.SendNotification hookNotify (notifyMessage notifyingConfig)] ∧
    ∀ l ∈ (Deploy notifyFailsRepo notifyingConfig FlowNotify Run.start).2.logs,
      l.level ≠ LogLevel.Warn :=
  Deploy_notify_returns_notification_outcome notifyFailsRepo notifyingConfig hookNotify
    rfl rfl

/-- C5. A flow identifier that is none of `all`, `docker`, `k8s`, `notify`,
`standard` makes `Deploy` return the unsupported-flow error without any call on
the repository; for each of the five values `Deploy` does not return that
error, whatever the repository does. -/
theorem Deploy_unsupported_flow (repo : DeployRepo) (config : DeployConfig)
    (flow : DeployFlow) :
    (flow ∉ supportedFlows →
      (Deploy repo config flow Run.start).1 = some (unsupportedFlowError flow) ∧
      (Deploy repo config flow Run.start).2.calls = []) ∧
    (flow ∈ supportedFlows →
      (Deploy repo config flow Run.start).1 ≠ some (unsupportedFlowError flow)) := by
  constructor
  · intro h
    simp only [supportedFlows, List.mem_cons, List.mem_singleton, not_or,
      List.not_mem_nil, or_false] at h
    obtain ⟨h1, h2, h3, h4, h5⟩ := h
    simp [Deploy, h1, h2, h3, h4, h5, unsupportedFlowError, Run.start, Run.info]
  · intro h
    simp only [supportedFlows, List.mem_cons, List.mem_singleton,
      List.not_mem_nil, or_false] at h
    rcases h with h | h | h | h | h <;> subst h
    · simp only [Deploy, if_true, deployAll]
      repeat' split
      all_goals simp [unsupportedFlowError]
    · rcases deployDocker_outcome repo config (Run.start.info ("开始部署，项目: "
        ++ config.ProjectName ++ ", 环境: " ++ config.Env ++ ", 流程: " ++ FlowDocker))
        with ⟨h1, _⟩ | ⟨d, e1, _, h1, _⟩ | ⟨d, e1, _, _, h1, _⟩ | ⟨d, _, _, h1, _⟩
      all_goals
        simp [Deploy, FlowDocker, FlowAll, unsupportedFlowError] at h1 ⊢
        simp [h1]
    · rcases deployK8s_outcome repo config (Run.start.info ("开始部署，项目: "
        ++ config.ProjectName ++ ", 环境: " ++ config.Env ++ ", 流程: " ++ FlowK8s))
        with ⟨h1, _⟩ | ⟨k, e1, _, h1, _⟩ | ⟨k, e1, _, _, h1, _⟩ | ⟨k, e1, _, _, _, h1, _⟩ |
          ⟨k, _, _, _, h1, _⟩
      all_goals
        simp [Deploy, FlowK8s, FlowDocker, FlowAll, unsupportedFlowError] at h1 ⊢
        simp [h1]
    · simp only [Deploy, FlowNotify, FlowK8s, FlowDocker, FlowAll, deployNotify]
      simp only [String.reduceEq, if_false, if_true]
      repeat' split
      all_goals simp [unsupportedFlowError]
    · simp only [Deploy, FlowStandard, FlowNotify, FlowK8s, FlowDocker, FlowAll,
        deployStandard]
      simp only [String.reduceEq, if_false, if_true]
      repeat' split
      all_goals simp [unsupportedFlowError]

/-- Witness of C5: `full` is not a supported flow, `all` is. -/
theorem Deploy_unsupported_flow_witness :
    ((Deploy okRepo mainConfig "full" Run.start).1 = some (unsupportedFlowError "full") ∧
      (Deploy okRepo mainConfig "full" Run.start).2.calls = []) ∧
    (Deploy okRepo mainConfig "all" Run.start).1 ≠ some (unsupportedFlowError "all") :=
  ⟨(Deploy_unsupported_flow okRepo mainConfig "full").1 (by decide),
    (Deploy_unsupported_flow okRepo mainConfig "all").2 (by decide)⟩

/-- C6. When the notification config is absent or has `Enabled = false`, the
notification step does nothing and succeeds: under flow `notify` no call is
made on the repository and `Deploy` returns `nil`; under flow `all`, once the
build, the push and the three reconcile calls have succeeded, `Deploy` returns
`nil` having made those five calls only, none of them `SendNotification`. -/
theorem Deploy_skips_disabled_notification (repo : DeployRepo) (config : DeployConfig)
    (hoff : config.Notify = none ∨ ∃ n, config.Notify = some n ∧ n.Enabled = false) :
    ((Deploy repo config FlowNotify Run.start).1 = none ∧
      (Deploy repo config FlowNotify Run.start).2.calls = []) ∧
    ∀ (d : DockerConfig) (k : K8sConfig),
      config.Docker = some d → config.K8s = some k →
      repo [] (.BuildDockerImage d) = none →
      repo [.BuildDockerImage d] (.PushDockerImage d) = none →
      repo [.BuildDockerImage d, .PushDockerImage d] (.ApplyK8sDeployment k) = none →
      repo [.BuildDockerImage d, .PushDockerImage d, .ApplyK8sDeployment k]
        (.ApplyK8sService k) = none →
      repo [.BuildDockerImage d, .PushDockerImage d, .ApplyK8sDeployment k,
        .ApplyK8sService k] (.UpdateK8sVersion k) = none →
      (Deploy repo config FlowAll Run.start).1 = none ∧
      (Deploy repo config FlowAll Run.start).2.calls =
        [.BuildDockerImage d, .PushDockerImage d, .ApplyK8sDeployment k,
          .ApplyK8sService k, .UpdateK8sVersion k] ∧
      ∀ c ∈ (Deploy repo config FlowAll Run.start).2.calls,
        c.op ≠ RepoOp.SendNotification := by
  rcases hoff with hn | ⟨n, hn, he⟩
  · refine ⟨by simp [Deploy, deployNotify, FlowAll, FlowDocker, FlowK8s, FlowNotify,
      Run.start, Run.info, hn], ?_⟩
    intro d k hd hk hb hp ha hs hu
    simp [Deploy, deployAll, deployDocker, deployK8s, deployNotify, FlowAll, Run.start,
      Run.info, Run.called, RepoCall.op, hd, hk, hn, hb, hp, ha, hs, hu]
  · refine ⟨by simp [Deploy, deployNotify, FlowAll, FlowDocker, FlowK8s, FlowNotify,
      Run.start, Run.info, hn, he], ?_⟩
    intro d k hd hk hb hp ha hs hu
    simp [Deploy, deployAll, deployDocker, deployK8s, deployNotify, FlowAll, Run.start,
      Run.info, Run.called, RepoCall.op, hd, hk, hn, he, hb, hp, ha, hs, hu]

/-- Witness of C6: the config of `main` with a disabled notification config, on
a repository whose `SendNotification` would fail. -/
theorem Deploy_skips_disabled_notification_witness :
    ((Deploy notifyFailsRepo { mainConfig with Notify := some mutedNotify } FlowNotify
        Run.start).1 = none ∧
      (Deploy notifyFailsRepo { mainConfig with Notify := some mutedNotify } FlowNotify
        Run.start).2.calls = []) ∧
    (Deploy notifyFailsRepo { mainConfig with Notify := some mutedNotify } FlowAll
        Run.start).1 = none ∧
    (Deploy notifyFailsRepo { mainConfig with Notify := some mutedNotify } FlowAll
        Run.start).2.calls =
      [.BuildDockerImage mainDocker, .PushDockerImage mainDocker,
        .ApplyK8sDeployment mainK8s, .ApplyK8sService mainK8s,
        .UpdateK8sVersion mainK8s] :=
  have h := Deploy_skips_disabled_notification notifyFailsRepo
    { mainConfig with Notify := some mutedNotify } (Or.inr ⟨mutedNotify, rfl, rfl⟩)
  have g := h.2 mainDocker mainK8s rfl rfl rfl rfl rfl rfl rfl
  ⟨h.1, g.1, g.2.1⟩

/-! ## Theorems: the cluster reconciler -/

/-- Reading a key just assigned gives the value assigned. -/
theorem mapGet_mapSet_same {ν : Type} (m : List (String × ν)) (k : String) (v : ν) :
    mapGet (mapSet m k v) k = some v := by
  induction m with
  | nil => simp [mapSet, mapGet]
  | cons p rest ih =>
    obtain ⟨k0, v0⟩ := p
    by_cases h : k0 = k <;> simp [mapSet, mapGet, h, ih]

/-- An assignment leaves the other keys as they were. -/
theorem mapGet_mapSet_other {ν : Type} (m : List (String × ν)) (k key : String) (v : ν)
    (hne : key ≠ k) : mapGet (mapSet m k v) key = mapGet m key := by
  induction m with
  | nil => simp [mapSet, mapGet, Ne.symm hne]
  | cons p rest ih =>
    obtain ⟨k0, v0⟩ := p
    by_cases h : k0 = k
    · subst h
      simp [mapSet, mapGet, Ne.symm hne]
    · by_cases g : k0 = key
      · subst g
        simp [mapSet, mapGet, h]
      · simp [mapSet, mapGet, h, g, ih]

/-- The restart annotation of the object `stampRestart` returns. -/
theorem stampRestart_stamp (d : appsv1.Deployment) (stamp : String) :
    lookup (stampRestart d stamp).Spec.Template.ObjectMeta.Annotations
      restartedAtKey = some stamp := by
  simp [stampRestart, lookup, mapGet_mapSet_same]

/-- The object `stampRestart` returns is its argument but for the
restart annotation. -/
theorem stampRestart_frame (d : appsv1.Deployment) (stamp : String) :
    SameExceptRestartStamp (stampRestart d stamp) d := by
  refine ⟨rfl, rfl, rfl, rfl, rfl, rfl, ?_⟩
  intro key hne
  rcases h : d.Spec.Template.ObjectMeta.Annotations with _ | m
  · simp [stampRestart, lookup, h, mapGet_mapSet_other _ _ _ _ hne, mapGet,
      Ne.symm hne]
  · simp [stampRestart, lookup, h, mapGet_mapSet_other _ _ _ _ hne]

/-- Agreement outside the restart annotation is transitive. -/
theorem SameExceptRestartStamp.trans {a b c : appsv1.Deployment}
    (hab : SameExceptRestartStamp a b) (hbc : SameExceptRestartStamp b c) :
    SameExceptRestartStamp a c := by
  obtain ⟨a1, a2, a3, a4, a5, a6, a7⟩ := hab
  obtain ⟨b1, b2, b3, b4, b5, b6, b7⟩ := hbc
  exact ⟨a1.trans b1, a2.trans b2, a3.trans b3, a4.trans b4, a5.trans b5, a6.trans b6,
    fun key hne => (a7 key hne).trans (b7 key hne)⟩

/-- Agreement outside the restart annotation is symmetric. -/
theorem SameExceptRestartStamp.symm {a b : appsv1.Deployment}
    (hab : SameExceptRestartStamp a b) : SameExceptRestartStamp b a := by
  obtain ⟨a1, a2, a3, a4, a5, a6, a7⟩ := hab
  exact ⟨a1.symm, a2.symm, a3.symm, a4.symm, a5.symm, a6.symm,
    fun key hne => (a7 key hne).symm⟩

/-- C7, as stated, fails: the object `ApplyK8sDeployment` passes to Update is
the translated object, whose resource version is empty, not the resource
version of the object the Get returned. -/
theorem ApplyK8sDeployment_update_counterexample :
    createK8sClient liveCluster mainK8s.KubeconfigPath = none ∧
    liveCluster.getDeployment [] mainK8s.Namespace mainK8s.DeploymentName
      = .ok liveDeployment ∧
    liveDeployment.ObjectMeta.ResourceVersion = "41" ∧
    (ApplyK8sDeployment liveCluster mainK8s Session.start).2.api
      = [.GetDeployment "default" "example-app",
          .UpdateDeployment "default" (buildDeployment mainK8s)] ∧
    (buildDeployment mainK8s).ObjectMeta.ResourceVersion = "" ∧
    (buildDeployment mainK8s).ObjectMeta.ResourceVersion
      ≠ liveDeployment.ObjectMeta.ResourceVersion :=
  ⟨rfl, rfl, rfl, by decide, rfl, by decide⟩

/-- C7, amended. Over a reachable cluster `ApplyK8sDeployment` is an upsert:
when the Get by (namespace, name) answers that the workload is not found, it
issues exactly one Create, with the translated object, and no Update; when the
Get returns an existing workload, it issues exactly one Update and no Create,
and the object passed to Update is the translated object, the one the Create
branch sends, so that its resource version is empty whatever the fetched
object carries. Never both calls, never neither. -/
theorem ApplyK8sDeployment_upsert (cl : Cluster) (config : K8sConfig)
    (hreach : createK8sClient cl config.KubeconfigPath = none) :
    (∀ text, cl.getDeployment [] config.Namespace config.DeploymentName
        = .error ⟨.NotFound, text⟩ →
      (ApplyK8sDeployment cl config Session.start).2.api
        = [.GetDeployment config.Namespace config.DeploymentName,
            .CreateDeployment config.Namespace (buildDeployment config)]) ∧
    (∀ fetched, cl.getDeployment [] config.Namespace config.DeploymentName
        = .ok fetched →
      (ApplyK8sDeployment cl config Session.start).2.api
        = [.GetDeployment config.Namespace config.DeploymentName,
            .UpdateDeployment config.Namespace (buildDeployment config)] ∧
      (buildDeployment config).ObjectMeta.ResourceVersion = "") := by
  constructor
  · intro text hget
    simp only [ApplyK8sDeployment, hreach, Session.start, Session.info, Session.called,
      hget]
    cases cl.write _ _ <;> rfl
  · intro fetched hget
    refine ⟨?_, rfl⟩
    simp only [ApplyK8sDeployment, hreach, Session.start, Session.info, Session.called,
      hget]
    cases cl.write _ _ <;> rfl

/-- Witness of the amended C7: the config of `main` on an empty cluster and on
a cluster that holds the workload. -/
theorem ApplyK8sDeployment_upsert_witness :
    (ApplyK8sDeployment emptyCluster mainK8s Session.start).2.api
      = [.GetDeployment "default" "example-app",
          .CreateDeployment "default" (buildDeployment mainK8s)] ∧
    (ApplyK8sDeployment liveCluster mainK8s Session.start).2.api
      = [.GetDeployment "default" "example-app",
          .UpdateDeployment "default" (buildDeployment mainK8s)] ∧
    (buildDeployment mainK8s).ObjectMeta.ResourceVersion = "" :=
  ⟨(ApplyK8sDeployment_upsert emptyCluster mainK8s rfl).1 _ rfl,
    (ApplyK8sDeployment_upsert liveCluster mainK8s rfl).2 liveDeployment rfl⟩

/-- C8, at a failing input. On a cluster whose Get is refused (Forbidden, not
NotFound), `ApplyK8sDeployment` and `ApplyK8sService` go on to issue a Create
and return `nil`, where `UpdateK8sVersion` stops with an error after the Get. -/
theorem Apply_creates_after_refused_get :
    forbiddenCluster.getDeployment [] "default" "example-app"
      = .error ⟨.Forbidden, "deployments.apps is forbidden"⟩ ∧
    (ApplyK8sDeployment forbiddenCluster mainK8s Session.start).1 = none ∧
    (ApplyK8sDeployment forbiddenCluster mainK8s Session.start).2.api
      = [.GetDeployment "default" "example-app",
          .CreateDeployment "default" (buildDeployment mainK8s)] ∧
    (ApplyK8sService forbiddenCluster mainK8s Session.start).1 = none ∧
    (ApplyK8sService forbiddenCluster mainK8s Session.start).2.api
      = [.GetService "default" "example-app-service",
          .CreateService "default" (buildService mainK8s)] ∧
    (UpdateK8sVersion forbiddenCluster noon mainK8s Session.start).1
      = some (.wrapf "获取 Deployment 失败: "
          (.foreign ⟨.Forbidden, "deployments.apps is forbidden"⟩)) ∧
    (UpdateK8sVersion forbiddenCluster noon mainK8s Session.start).2.api
      = [.GetDeployment "default" "example-app"] :=
  ⟨rfl, by decide, by decide, by decide, by decide, by decide, by decide⟩

/-- C9, as stated, fails in its last sentence: on a cluster that stores the
first update and raises the resource version and the generation of the object,
as an API server does, the objects two successive calls of `UpdateK8sVersion`
pass to Update differ in those metadata fields too, not only in the value of
the restart annotation. -/
theorem UpdateK8sVersion_successive_counterexample :
    createK8sClient storingCluster mainK8s.KubeconfigPath = none ∧
    (UpdateK8sVersion storingCluster evening mainK8s
        (UpdateK8sVersion storingCluster noon mainK8s Session.start).2).2.api
      = [.GetDeployment "default" "example-app",
          .UpdateDeployment "default" (stampRestart liveDeployment "2024-03-09T12:00:05Z"),
          .GetDeployment "default" "example-app",
          .UpdateDeployment "default"
            (stampRestart restartedAtNoon "2024-03-09T18:30:00Z")] ∧
    (stampRestart liveDeployment "2024-03-09T12:00:05Z").ObjectMeta.ResourceVersion
      = "41" ∧
    (stampRestart restartedAtNoon "2024-03-09T18:30:00Z").ObjectMeta.ResourceVersion
      = "42" ∧
    (stampRestart liveDeployment "2024-03-09T12:00:05Z").ObjectMeta.Generation = 3 ∧
    (stampRestart restartedAtNoon "2024-03-09T18:30:00Z").ObjectMeta.Generation = 4 ∧
    ¬ SameExceptRestartStamp (stampRestart restartedAtNoon "2024-03-09T18:30:00Z")
        (stampRestart liveDeployment "2024-03-09T12:00:05Z") :=
  ⟨rfl, by decide, rfl, rfl, rfl, rfl, fun h => absurd h.1 (by decide)⟩

/-- C9, amended. The object `UpdateK8sVersion` passes to Update is the fetched
object, whether its pod template has an annotation map or not, with the restart
annotation of the pod template set to the formatted clock reading: metadata,
status, replica count, selector, pod spec (the image with it), labels and all
other annotations are those of the fetched object. A second call does the same
to the object it fetches; what it sends differs from what the first call sent
in the value of that annotation only exactly when the object it fetched agrees
with the first one sent outside that annotation. -/
theorem UpdateK8sVersion_changes_only_restart_stamp (cl : Cluster)
    (config : K8sConfig) (now : metav1.Time) (fetched : appsv1.Deployment)
    (hreach : createK8sClient cl config.KubeconfigPath = none)
    (hget : cl.getDeployment [] config.Namespace config.DeploymentName = .ok fetched) :
    (UpdateK8sVersion cl now config Session.start).2.api
      = [.GetDeployment config.Namespace config.DeploymentName,
          .UpdateDeployment config.Namespace (stampRestart fetched now.Format)] ∧
    SameExceptRestartStamp (stampRestart fetched now.Format) fetched ∧
    lookup (stampRestart fetched now.Format).Spec.Template.ObjectMeta.Annotations
      restartedAtKey = some now.Format ∧
    ∀ (later : metav1.Time) (again : appsv1.Deployment),
      cl.getDeployment
        [.GetDeployment config.Namespace config.DeploymentName,
          .UpdateDeployment config.Namespace (stampRestart fetched now.Format)]
        config.Namespace config.DeploymentName = .ok again →
      (UpdateK8sVersion cl later config
          (UpdateK8sVersion cl now config Session.start).2).2.api
        = [.GetDeployment config.Namespace config.DeploymentName,
            .UpdateDeployment config.Namespace (stampRestart fetched now.Format),
            .GetDeployment config.Namespace config.DeploymentName,
            .UpdateDeployment config.Namespace (stampRestart again later.Format)] ∧
      SameExceptRestartStamp (stampRestart again later.Format) again ∧
      lookup (stampRestart again later.Format).Spec.Template.ObjectMeta.Annotations
        restartedAtKey = some later.Format ∧
      (SameExceptRestartStamp (stampRestart again later.Format)
          (stampRestart fetched now.Format) ↔
        SameExceptRestartStamp again (stampRestart fetched now.Format)) := by
  have h1 : (UpdateK8sVersion cl now config Session.start).2.api
      = [.GetDeployment config.Namespace config.DeploymentName,
          .UpdateDeployment config.Namespace (stampRestart fetched now.Format)] := by
    simp only [UpdateK8sVersion, hreach, Session.start, Session.info, Session.called, hget]
    cases cl.write _ _ <;> rfl
  refine ⟨h1, stampRestart_frame _ _, stampRestart_stamp _ _, ?_⟩
  intro later again hget2
  refine ⟨?_, stampRestart_frame _ _, stampRestart_stamp _ _,
    fun h => (stampRestart_frame again later.Format).symm.trans h,
    fun h => (stampRestart_frame again later.Format).trans h⟩
  generalize UpdateK8sVersion cl now config Session.start = r at h1
  obtain ⟨e1, s1⟩ := r
  simp only at h1
  simp only [UpdateK8sVersion, hreach, Session.info, Session.called, h1, hget2]
  cases cl.write _ _ <;> simp

/-- Witness of the amended C9: two restarts of the workload `main` asks for, on
a cluster that stores the first update. -/
theorem UpdateK8sVersion_changes_only_restart_stamp_witness :
    (UpdateK8sVersion storingCluster noon mainK8s Session.start).2.api
      = [.GetDeployment "default" "example-app",
          .UpdateDeployment "default"
            (stampRestart liveDeployment "2024-03-09T12:00:05Z")] ∧
    (stampRestart liveDeployment "2024-03-09T12:00:05Z")
      = { liveDeployment with
          Spec := { liveDeployment.Spec with
            Template := { liveDeployment.Spec.Template with
              ObjectMeta := { liveDeployment.Spec.Template.ObjectMeta with
                Annotations := some [("team", "web"),
                  ("kubectl.kubernetes.io/restartedAt", "2024-03-09T12:00:05Z")] } } } } ∧
    (UpdateK8sVersion storingCluster evening mainK8s
        (UpdateK8sVersion storingCluster noon mainK8s Session.start).2).2.api
      = [.GetDeployment "default" "example-app",
          .UpdateDeployment "default"
            (stampRestart liveDeployment "2024-03-09T12:00:05Z"),
          .GetDeployment "default" "example-app",
          .UpdateDeployment "default"
            (stampRestart restartedAtNoon "2024-03-09T18:30:00Z")] ∧
    SameExceptRestartStamp (stampRestart restartedAtNoon "2024-03-09T18:30:00Z")
      restartedAtNoon ∧
    (stampRestart restartedAtNoon "2024-03-09T18:30:00Z")
      = { restartedAtNoon with
          Spec := { restartedAtNoon.Spec with
            Template := { restartedAtNoon.Spec.Template with
              ObjectMeta := { restartedAtNoon.Spec.Template.ObjectMeta with
                Annotations := some [("team", "web"),
                  ("kubectl.kubernetes.io/restartedAt", "2024-03-09T18:30:00Z")] } } } } :=
  have h := UpdateK8sVersion_changes_only_restart_stamp storingCluster mainK8s noon
    liveDeployment rfl rfl
  have g := h.2.2.2 evening restartedAtNoon rfl
  ⟨h.1, by decide, g.1, g.2.1, by decide⟩

/-- C10. `buildDeployment` and `buildService` use one label set, the single
entry `app = DeploymentName`: it is the metadata labels of the workload, its
selector, the labels of its pod template, the metadata labels of the service
and the selector of the service; so the selector of the service matches the
pods of the workload. -/
theorem build_labels_agree (config : K8sConfig) :
    (buildDeployment config).ObjectMeta.Labels = some [("app", config.DeploymentName)] ∧
    (buildDeployment config).Spec.Selector
      = some { MatchLabels := some [("app", config.DeploymentName)] } ∧
    (buildDeployment config).Spec.Template.ObjectMeta.Labels
      = some [("app", config.DeploymentName)] ∧
    (buildService config).ObjectMeta.Labels = some [("app", config.DeploymentName)] ∧
    (buildService config).Spec.Selector = some [("app", config.DeploymentName)] ∧
    selectorMatches (buildService config).Spec.Selector
      (buildDeployment config).Spec.Template.ObjectMeta.Labels = true := by
  refine ⟨rfl, rfl, rfl, rfl, rfl, ?_⟩
  simp [selectorMatches, buildService, buildDeployment, lookup, mapGet]

/-! ## Theorems: the resource translator -/

/-- The keys of the map `buildResourceList` returns, and when it is nil. -/
theorem buildResourceList_keys (cpu memory : String) :
    mapKeys (buildResourceList cpu memory) = resourceKeysFor cpu memory ∧
    (buildResourceList cpu memory = none ↔ cpu = "" ∧ memory = "") := by
  by_cases hc : cpu = "" <;> by_cases hm : memory = "" <;>
    simp [buildResourceList, resourceKeysFor, mapKeys, mapSet, corev1.ResourceCPU,
      corev1.ResourceMemory, hc, hm]

/-- C11. The one container `buildDeployment` makes carries resources for the
non-empty sub-fields only. With `Resources` nil it has neither `Requests` nor
`Limits`. Otherwise the keys of `Requests` are `cpu` if `CPURequest` is not
empty and `memory` if `MemoryRequest` is not empty, each at most once, and
`Requests` is nil exactly when both are empty; the same holds of `Limits` with
`CPULimit` and `MemoryLimit`. The request strings decide `Requests` alone and
the limit strings decide `Limits` alone. -/
theorem buildDeployment_resources (config : K8sConfig) :
    ∃ c : corev1.Container,
      (buildDeployment config).Spec.Template.Spec.Containers = [c] ∧
      (config.Resources = none →
        c.Resources.Requests = none ∧ c.Resources.Limits = none) ∧
      ∀ r, config.Resources = some r →
        mapKeys c.Resources.Requests = resourceKeysFor r.CPURequest r.MemoryRequest ∧
        (c.Resources.Requests = none ↔ r.CPURequest = "" ∧ r.MemoryRequest = "") ∧
        mapKeys c.Resources.Limits = resourceKeysFor r.CPULimit r.MemoryLimit ∧
        (c.Resources.Limits = none ↔ r.CPULimit = "" ∧ r.MemoryLimit = "") := by
  refine ⟨_, rfl, ?_, ?_⟩
  · intro h
    simp [h]
  · intro r h
    simp only [h]
    exact ⟨(buildResourceList_keys _ _).1, (buildResourceList_keys _ _).2,
      (buildResourceList_keys _ _).1, (buildResourceList_keys _ _).2⟩

/-- Witness of C11: a config with only `CPURequest` set gives a `Requests` map
with the key `cpu` alone and no `Limits`; the config of `main`, without
`Resources`, gives neither. -/
theorem buildDeployment_resources_witness :
    (buildDeployment cpuOnlyK8s).Spec.Template.Spec.Containers.map (fun c => c.Resources)
      = [{ Requests := some [("cpu", {})], Limits := none }] ∧
    (buildDeployment mainK8s).Spec.Template.Spec.Containers.map (fun c => c.Resources)
      = [{ Requests := none, Limits := none }] ∧
    ∃ c : corev1.Container,
      (buildDeployment cpuOnlyK8s).Spec.Template.Spec.Containers = [c] ∧
      mapKeys c.Resources.Requests = ["cpu"] ∧ c.Resources.Limits = none := by
  refine ⟨by decide, by decide, ?_⟩
  obtain ⟨c, hc, _, h⟩ := buildDeployment_resources cpuOnlyK8s
  obtain ⟨h1, _, _, h4⟩ := h _ rfl
  exact ⟨c, hc, h1, h4.2 ⟨rfl, rfl⟩⟩

/-! ## Theorems: the command -/

/-- C12, at a failing input. The usage text of `-flow` lists `all`, `docker`,
`k8s`, `notify`, `standard` and the default is `all`, yet the switch of `main`
sends `all` to its `default` branch, the unsupported-flow `Fatalf`; it maps
`full`, a name the usage text does not list, to `FlowAll`. The other four
names are mapped to their constants. -/
theorem mapFlowName_rejects_advertised_all :
    flagflowUsage = "部署流程 (" ++ String.intercalate "/" advertisedFlows ++ ")" ∧
    flagflowDefault ∈ advertisedFlows ∧
    mapFlowName flagflowDefault = .error "不支持的部署流程: all" ∧
    FlowAll = "all" ∧
    "full" ∉ advertisedFlows ∧
    mapFlowName "full" = .ok FlowAll ∧
    mapFlowName "docker" = .ok FlowDocker ∧
    mapFlowName "k8s" = .ok FlowK8s ∧
    mapFlowName "notify" = .ok FlowNotify ∧
    mapFlowName "standard" = .ok FlowStandard :=
  ⟨by decide, by decide, rfl, rfl, by decide, rfl, rfl, rfl, rfl, rfl⟩

end DroneDeploy
